import Mathlib

/-!
Verification of the VerticalPhotoPlacer core against its source.

Shallow embedding conventions:
* Python floats are modelled as exact numbers: rationals (ℚ) for stored
  metadata fields, reals (ℝ) wherever the computation applies transcendental
  functions (sin, cos, sqrt, atan).
* A Python value that may be `None` is an `Option`.
* A Python function that may raise is an `Except PyErr _` or `Option _`;
  in stage loops an exception escaping the loop is the `Except.error` branch.
* External collaborators (the DEM sampler, the camera lookup table, the raw
  EXIF tag mapping, the cancellation flag) are parameters of the functions
  that consume them, matching the spec's external-interface boundaries.
-/

/-- Exceptions of the Python source that are observable in the model.
`keyError`, `attributeError`, `typeError` are the builtin exceptions the
source can raise; `cameraModelNotFound` is `CameraModelNotFound` of
`process_metadata.py`; `builderError` stands for any exception propagating
out of `createWorldfile`. -/
inductive PyErr where
  | keyError
  | attributeError
  | typeError
  | cameraModelNotFound
  | builderError
deriving DecidableEq

/-- The per-photo metadata record, `Photo` of `src/model/process_metadata.py`
(lines 189-218).  Every field starts out `None` and is filled by
`get_metadata`.  The two sensor-degree fields are real-valued because they
are produced by the trigonometric meter-to-degree conversion. -/
structure Photo where
  image_width : Option ℚ := none
  image_height : Option ℚ := none
  focal_length : Option ℚ := none
  gpslat : Option ℚ := none
  gpslon : Option ℚ := none
  gpsalt : Option ℚ := none
  baroalt : Option ℚ := none
  groundalt : Option ℚ := none
  heading : Option ℚ := none
  cam_model : Option String := none
  sensor_width_decimal : Option ℚ := none
  sensor_height_decimal : Option ℚ := none
  sensor_width_degree : Option ℝ := none
  sensor_height_degree : Option ℝ := none

/-- A freshly constructed `Photo(path)`: every metadata field is unset. -/
def Photo.blank : Photo := {}

/-- `Photo.getAltByPriority`, `src/model/process_metadata.py` lines 359-376.
The Python body is an `if / elif / elif` chain with no `else`: when all three
altitude fields are `None` the function falls off the end and returns `None`
(nothing in the `try` block can raise, so the `except` clause that would
raise `AltitudeNotFound` is unreachable). -/
def getAltByPriority (p : Photo) : Option ℚ :=
  match p.groundalt with
  | some g => some g
  | none =>
    match p.baroalt with
    | some b => some b
    | none =>
      match p.gpsalt with
      | some a => some a
      | none => none

/-- One row of the external camera lookup table `camlist.xml`:
model name, sensor width and height in millimeters. -/
structure CamEntry where
  name : String
  width : ℚ
  height : ℚ

/-- Python `str.lower()`, character by character (over the character list, so
that it evaluates inside the kernel). -/
def strLower (s : String) : String :=
  String.mk (s.data.map Char.toLower)

/-- `ProcessCamera.getCamsize`, `src/model/process_metadata.py` lines 71-91.
The table is the parsed external config resource.  A `None` model raises
`AttributeError` at `model.lower()`; a model absent from the table raises
`CameraModelNotFound`; a hit returns the row's width and height divided by
1000 (millimeters to meters). -/
def ProcessCamera.getCamsize (table : List CamEntry) (model : Option String) :
    Except PyErr (ℚ × ℚ) :=
  match model with
  | none => .error .attributeError
  | some m =>
    match table.find? (fun e => strLower m == strLower e.name) with
    | some e => .ok (e.width / 1000, e.height / 1000)
    | none => .error .cameraModelNotFound

/-- `getCamSensorSize`, `src/model/process_metadata.py` lines 97-123.
Only `CameraModelNotFound` is caught (triggering the heuristic estimate
`img_width*1.55/1000000`, `img_height*1.55/1000000`); any other exception,
in particular the `AttributeError` raised for a `None` model, propagates.
The heuristic multiplies possibly-`None` image dimensions, raising
`TypeError` when one is unset. -/
def getCamSensorSize (table : List CamEntry) (model : Option String)
    (img_width img_height : Option ℚ) : Except PyErr (ℚ × ℚ) :=
  match ProcessCamera.getCamsize table model with
  | .ok r => .ok r
  | .error .cameraModelNotFound =>
    match img_width, img_height with
    | some w, some h => .ok (w * 1.55 / 1000000, h * 1.55 / 1000000)
    | _, _ => .error .typeError
  | .error e => .error e

/-- Degrees to radians, Python `math.radians`. -/
noncomputable def deg2rad (x : ℝ) : ℝ := x * Real.pi / 180

/-- Radians to degrees, Python `math.degrees`. -/
noncomputable def rad2deg (x : ℝ) : ℝ := x * 180 / Real.pi

/-- Modelled from the spec: the constant degrees-per-meter factor along the
meridian used by `meter2Degree` of the missing `utility` module
(spec section 4.1, `sensorMetersToDegrees`). -/
def metersToDegrees : ℚ := 1 / 111139

/-- Modelled from the spec: `meter2Degree(latitude, width_m, height_m)` of the
missing `utility` module (spec section 4.1): degrees-per-meter along the
meridian is the constant `metersToDegrees`; along the parallel it is scaled
by `1 / cos(latitude)`.  Returns `(width_deg, height_deg)`. -/
noncomputable def meter2Degree (lat w h : ℚ) : ℝ × ℝ :=
  ((w : ℝ) * (metersToDegrees : ℝ) / Real.cos (deg2rad (lat : ℝ)),
   (h : ℝ) * (metersToDegrees : ℝ))

/-- The six values of a worldfile, in the naming of the source:
rotation/scale coefficients `A`, `B`, `D`, `E` and the upper-left corner. -/
structure Worldfile where
  A : ℝ
  B : ℝ
  D : ℝ
  E : ℝ
  ulon : ℝ
  ulat : ℝ

/-- `createWorldfile`, `src/model/process_metadata.py` lines 128-186 (the
canonical builder).  `none` models the exception paths: an unresolvable
altitude (`None` arithmetic), a missing required field (`TypeError`), or a
zero divisor (`ZeroDivisionError` on `focal_length`, `image_width` or
`image_height`). -/
noncomputable def createWorldfile (p : Photo) : Option Worldfile :=
  match getAltByPriority p, p.focal_length, p.sensor_width_degree, p.sensor_height_degree,
        p.image_width, p.image_height, p.gpslat, p.gpslon, p.heading with
  | some g, some fl, some swd, some shd, some iw, some ih, some lat, some lon, some hd =>
    if fl = 0 ∨ iw = 0 ∨ ih = 0 then none else
      let scale_factor : ℝ := (g : ℝ) / (fl : ℝ)
      let sensor_pixel_width_degrees : ℝ := swd / (iw : ℝ)
      let sensor_pixel_length_degrees : ℝ := shd / (ih : ℝ)
      let img_hwidth_degrees : ℝ := swd * scale_factor / 2
      let img_hlength_degrees : ℝ := shd * scale_factor / 2
      let ground_pixel_width := sensor_pixel_width_degrees * scale_factor
      let ground_pixel_length := sensor_pixel_length_degrees * scale_factor
      let hypotenuse_hlength_degrees :=
        Real.sqrt (img_hwidth_degrees * img_hwidth_degrees +
                   img_hlength_degrees * img_hlength_degrees)
      let invar_angle := rad2deg (Real.arctan ((iw : ℝ) / (ih : ℝ)))
      let lat_angle := (hd : ℝ) - invar_angle
      let y_length := hypotenuse_hlength_degrees * Real.cos (deg2rad lat_angle)
      let x_length := hypotenuse_hlength_degrees * Real.sin (deg2rad lat_angle)
      some { A := Real.cos (deg2rad (hd : ℝ)) * ground_pixel_width
           , B := -(Real.sin (deg2rad (hd : ℝ)) * ground_pixel_length)
           , D := -(Real.sin (deg2rad (hd : ℝ)) * ground_pixel_width)
           , E := -(Real.cos (deg2rad (hd : ℝ)) * ground_pixel_length)
           , ulon := (lon : ℝ) + x_length
           , ulat := (lat : ℝ) + y_length }
  | _, _, _, _, _, _, _, _, _ => none

/-- `createSingleWorldfile`, `src/model/uav_georeference.py` lines 94-159 (the
legacy builder).  Same algorithm, but the sensor size arrives in meters and
is converted by `meter2Degree` internally, and the pixel dimensions are the
explicit parameters `iw`, `ih`. -/
noncomputable def createSingleWorldfile (iw ih fl sw sh lat lon groundalt heading : ℚ) :
    Option Worldfile :=
  let conv := meter2Degree lat sw sh
  let swd := conv.1
  let shd := conv.2
  if fl = 0 ∨ iw = 0 ∨ ih = 0 then none else
    let scale_factor : ℝ := (groundalt : ℝ) / (fl : ℝ)
    let sensor_pixel_width_degrees : ℝ := swd / (iw : ℝ)
    let sensor_pixel_length_degrees : ℝ := shd / (ih : ℝ)
    let img_hwidth_degrees : ℝ := swd * scale_factor / 2
    let img_hlength_degrees : ℝ := shd * scale_factor / 2
    let ground_pixel_width := sensor_pixel_width_degrees * scale_factor
    let ground_pixel_length := sensor_pixel_length_degrees * scale_factor
    let hypotenuse_hlength_degrees :=
      Real.sqrt (img_hwidth_degrees * img_hwidth_degrees +
                 img_hlength_degrees * img_hlength_degrees)
    let invar_angle := rad2deg (Real.arctan ((iw : ℝ) / (ih : ℝ)))
    let lat_angle := (heading : ℝ) - invar_angle
    let y_length := hypotenuse_hlength_degrees * Real.cos (deg2rad lat_angle)
    let x_length := hypotenuse_hlength_degrees * Real.sin (deg2rad lat_angle)
    some { A := Real.cos (deg2rad (heading : ℝ)) * ground_pixel_width
         , B := -(Real.sin (deg2rad (heading : ℝ)) * ground_pixel_length)
         , D := -(Real.sin (deg2rad (heading : ℝ)) * ground_pixel_width)
         , E := -(Real.cos (deg2rad (heading : ℝ)) * ground_pixel_length)
         , ulon := (lon : ℝ) + x_length
         , ulat := (lat : ℝ) + y_length }

/-- The call `worldfilesGenerator` makes per photo,
`src/model/uav_georeference.py` lines 68-73: `createSingleWorldfile(
photo.sensor_width_decimal, photo.sensor_height_decimal, photo.focal_length,
photo.sensor_width_decimal, photo.sensor_height_decimal, photo.gpslat,
photo.gpslon, altitude, photo.heading, ...)` — the sensor sizes are passed
where the signature expects the image pixel dimensions `iw`, `ih`.
`none` models a per-photo exception (caught by the loop's `except`). -/
noncomputable def generatorCall (p : Photo) : Option Worldfile :=
  match getAltByPriority p, p.sensor_width_decimal, p.sensor_height_decimal,
        p.focal_length, p.gpslat, p.gpslon, p.heading with
  | some alt, some sw, some sh, some fl, some lat, some lon, some hd =>
      createSingleWorldfile sw sh fl sw sh lat lon alt hd
  | _, _, _, _, _, _, _ => none

/-- The conditions a stage loop can signal, mirroring the exception classes of
the source: `cancelled` is `TaskCancelledByUser` of
`src/model/altitude_adjuster.py`; `genericExc` a plain `Exception(msg)`;
`warning` a raised `Warning(msg)`. -/
inductive StageSignal where
  | cancelled
  | genericExc (msg : String)
  | warning (msg : String)
deriving DecidableEq

/-- The message of the generic exception `worldfilesGenerator` raises when the
task's cancellation flag is set (`src/model/uav_georeference.py` line 82). -/
def taskCanceledMsg : String := "Task canceled!"

/-- The diagnostic message of the `Warning` raised by `worldfilesGenerator`
when no worldfile was generated (`src/model/uav_georeference.py`
lines 85-88). -/
def noWorldfileMsg : String :=
  "No worldfile generated. Common reasons are: \n1. The photos does not contain heading and altitude information.\n2. The camera sensor is not supported. \nIn case 2, please try to insert sensor name, width and height to the camlist.xml"

/-- The loop of `worldfilesGenerator`, `src/model/uav_georeference.py`
lines 63-91.  `f` is the task's cancellation flag, sampled once per call of
`task.isCanceled()` (the argument counts the calls made so far).  A failed
photo hits `continue`, which skips the cancellation check for that
iteration; a processed photo is appended and then the flag is checked,
raising a generic `Exception` when set.  After the loop an empty result
raises `Warning(noWorldfileMsg)`. -/
noncomputable def worldfilesGeneratorLoop (f : ℕ → Bool) :
    List Photo → ℕ → List Photo → Except StageSignal (List Photo)
  | [], _, loaded_files =>
      if loaded_files.isEmpty then .error (.warning noWorldfileMsg)
      else .ok loaded_files.reverse
  | photo :: rest, checks, loaded_files =>
      match generatorCall photo with
      | none => worldfilesGeneratorLoop f rest checks loaded_files
      | some _ =>
          if f checks then .error (.genericExc taskCanceledMsg)
          else worldfilesGeneratorLoop f rest (checks + 1) (photo :: loaded_files)

/-- `worldfilesGenerator`, `src/model/uav_georeference.py` lines 43-91,
as a function of its cancellation flag and photo list. -/
noncomputable def worldfilesGenerator (f : ℕ → Bool) (photos : List Photo) :
    Except StageSignal (List Photo) :=
  worldfilesGeneratorLoop f photos 0 []

/-- The per-photo body of `altitudeAdjusterTerrain`,
`src/model/altitude_adjuster.py` lines 136-144.  `dem` is the external DSM
sampler (`getDSMValbyCoors`, called with `[lon, lat]`), returning `none`
outside coverage.  Any missing value makes the subtraction raise, so the
photo is dropped (`none`). -/
def terrainStep (dem : ℚ → ℚ → Option ℚ) (p : Photo) : Option Photo :=
  match p.gpslat, p.gpslon with
  | some lat, some lon =>
      match dem lon lat, p.gpsalt with
      | some img_terrain_alt, some gpsalt =>
          some { p with groundalt := some (gpsalt - img_terrain_alt) }
      | _, _ => none
  | _, _ => none

/-- The loop of `altitudeAdjusterTerrain`, `src/model/altitude_adjuster.py`
lines 135-153: same control shape as the generator's loop (`continue` on a
failed photo skips the cancellation check), but cancellation raises the
distinguished `TaskCancelledByUser` and an empty result is returned
normally (no warning). -/
def altitudeAdjusterTerrainLoop (dem : ℚ → ℚ → Option ℚ) (f : ℕ → Bool) :
    List Photo → ℕ → List Photo → Except StageSignal (List Photo)
  | [], _, processed_photos => .ok processed_photos.reverse
  | photo :: rest, checks, processed_photos =>
      match terrainStep dem photo with
      | none => altitudeAdjusterTerrainLoop dem f rest checks processed_photos
      | some p =>
          if f checks then .error .cancelled
          else altitudeAdjusterTerrainLoop dem f rest (checks + 1) (p :: processed_photos)

/-- `altitudeAdjusterTerrain`, `src/model/altitude_adjuster.py`
lines 112-153, as a function of the DSM sampler, the cancellation flag and
the photo list. -/
def altitudeAdjusterTerrain (dem : ℚ → ℚ → Option ℚ) (f : ℕ → Bool)
    (photos : List Photo) : Except StageSignal (List Photo) :=
  altitudeAdjusterTerrainLoop dem f photos 0 []

/-- The per-photo body of `altitudeAdjusterAdjacent`,
`src/model/altitude_adjuster.py` lines 184-198.  With a DSM the sampled
value goes through Python truthiness (`img_terrain_alt if img_terrain_alt
else adj_terrain_alt_avg`): the average is substituted when the sample is
`None` or exactly `0`.  Without a DSM, `groundalt = baroalt +
home_terrain_alt`. -/
def adjacentStep (dsm : Option (ℚ → ℚ → Option ℚ)) (home_terrain_alt adj_terrain_alt_avg : ℚ)
    (p : Photo) : Option Photo :=
  match dsm with
  | some sample =>
    match p.gpslat, p.gpslon with
    | some lat, some lon =>
      let img_terrain_alt : ℚ :=
        match sample lon lat with
        | some v => if v = 0 then adj_terrain_alt_avg else v
        | none => adj_terrain_alt_avg
      match p.baroalt with
      | some baroalt => some { p with groundalt := some (baroalt + (home_terrain_alt - img_terrain_alt)) }
      | none => none
    | _, _ => none
  | none =>
    match p.baroalt with
    | some baroalt => some { p with groundalt := some (baroalt + home_terrain_alt) }
    | none => none

/-- The loop of `altitudeAdjusterAdjacent`, `src/model/altitude_adjuster.py`
lines 180-209: same shape as the terrain loop. -/
def altitudeAdjusterAdjacentLoop (dsm : Option (ℚ → ℚ → Option ℚ)) (home_terrain_alt adj_terrain_alt_avg : ℚ)
    (f : ℕ → Bool) : List Photo → ℕ → List Photo → Except StageSignal (List Photo)
  | [], _, processed_photos => .ok processed_photos.reverse
  | photo :: rest, checks, processed_photos =>
      match adjacentStep dsm home_terrain_alt adj_terrain_alt_avg photo with
      | none => altitudeAdjusterAdjacentLoop dsm home_terrain_alt adj_terrain_alt_avg f rest checks processed_photos
      | some p =>
          if f checks then .error .cancelled
          else altitudeAdjusterAdjacentLoop dsm home_terrain_alt adj_terrain_alt_avg f rest (checks + 1) (p :: processed_photos)

/-- `altitudeAdjusterAdjacent`, `src/model/altitude_adjuster.py`
lines 156-209. -/
def altitudeAdjusterAdjacent (dsm : Option (ℚ → ℚ → Option ℚ)) (home_terrain_alt adj_terrain_alt_avg : ℚ)
    (f : ℕ → Bool) (photos : List Photo) : Except StageSignal (List Photo) :=
  altitudeAdjusterAdjacentLoop dsm home_terrain_alt adj_terrain_alt_avg f photos 0 []

/-- Index of the last occurrence of `c` in `cs` (Python `str.rfind`,
as an `Option` instead of `-1`). -/
def rfindIdx (c : Char) (cs : List Char) : Option ℕ :=
  match cs.reverse.findIdx? (fun x => x == c) with
  | some i => some (cs.length - 1 - i)
  | none => none

/-- CPython `os.path.splitext` on the character list of a posix path
(separator `/`): split at the last dot, unless it lies left of the last
separator or every character between the separator and the dot is itself a
dot (a leading-dot filename such as `.bashrc` has no extension). -/
def splitextList (cs : List Char) : List Char × List Char :=
  match rfindIdx '.' cs with
  | none => (cs, [])
  | some dotIndex =>
    let filenameIndex : ℕ :=
      match rfindIdx '/' cs with
      | some sepIndex => sepIndex + 1
      | none => 0
    if filenameIndex ≤ dotIndex ∧
        ((cs.drop filenameIndex).take (dotIndex - filenameIndex)).any (fun ch => ch ≠ '.') then
      (cs.take dotIndex, cs.drop dotIndex)
    else (cs, [])

/-- `os.path.splitext` on strings. -/
def splitext (p : String) : String × String :=
  let r := splitextList p.data
  (String.mk r.1, String.mk r.2)

/-- `Photo.__post_init__`, `src/model/process_metadata.py` lines 215-218:
`imgpath_noext, ext = splitext(path)`, `ext = ext.lower()`, worldfile name
`f'{imgpath_noext}.{ext[1]}{ext[-1]}w'`.  `none` models the `IndexError`
when the lowercased extension has no character at index 1. -/
def worldfile_filename (path : String) : Option String :=
  let r := splitext path
  let ext := strLower r.2
  match ext.data.get? 1, ext.data.getLast? with
  | some c1, some cl => some (r.1 ++ "." ++ String.mk [c1, cl, 'w'])
  | _, _ => none

/-- The ten decimal digits after the point of the fixed-point rendering of a
scaled fraction `n < 10^10`: digit `i` counted from the left is
`n / 10^(9-i) mod 10`.  By construction the string has exactly ten
characters. -/
def frac10 (n : ℕ) : String :=
  String.mk (((List.range 10).reverse).map (fun i => Nat.digitChar (n / 10 ^ i % 10)))

/-- Fixed-point rendering with 10 fractional digits of the integer `z`
standing for `z / 10^10` — the shape `numpy.savetxt` produces for the format
`%1.10f`. -/
def fmtFixed10 (z : ℤ) : String :=
  (if z < 0 then "-" else "") ++ toString (z.natAbs / 10 ^ 10) ++ "." ++ frac10 (z.natAbs % 10 ^ 10)

/-- The `%1.10f` rendering of a real value: round to the nearest multiple of
`10^-10` and print fixed-point with ten fractional digits. -/
noncomputable def fmt10 (x : ℝ) : String :=
  fmtFixed10 (round (x * 10 ^ 10))

/-- The lines `np.savetxt(..., world_content, fmt='%1.10f')` writes for one
photo, `src/model/process_metadata.py` lines 175-183: the six values in the
order `A`, `B`, `D`, `E`, `upper_left_lon`, `upper_left_lat`, one per
line. -/
noncomputable def worldfileLines (w : Worldfile) : List String :=
  [fmt10 w.A, fmt10 w.B, fmt10 w.D, fmt10 w.E, fmt10 w.ulon, fmt10 w.ulat]

/-- The worldfile write for a photo at `path`: the derived output filename
together with the written lines; `none` when the name derivation or the
builder fails. -/
noncomputable def writeWorldfile (path : String) (p : Photo) : Option (String × List String) :=
  match worldfile_filename path, createWorldfile p with
  | some name, some w => some (name, worldfileLines w)
  | _, _ => none

/-- Modelled from the spec: `refConversion(value, ref)` of the missing
`utility` module is `resolveHemisphereSign` of spec section 4.1: `-value`
when `ref` is `s` or `w` case-insensitively, else `value` (`get_metadata`
already lowercases the ref before the call). -/
def refConversion (v : ℚ) (ref : String) : ℚ :=
  if strLower ref = "s" ∨ strLower ref = "w" then -v else v

/-- Whether `pat` occurs as a contiguous sublist of the character list. -/
def listContainsSub (pat : List Char) : List Char → Bool
  | [] => pat.isPrefixOf []
  | c :: t => pat.isPrefixOf (c :: t) || listContainsSub pat t

/-- Python substring containment `pat in s`. -/
def strContains (s pat : String) : Bool :=
  listContainsSub pat.data s.data

/-- The tags `get_metadata` reads from the metadata provider (`TAGS`,
`src/model/process_metadata.py` lines 40-43); a `none` field is a tag absent
from the returned mapping. -/
structure RawMeta where
  imageWidth : Option ℚ := none
  imageHeight : Option ℚ := none
  focalLength : Option ℚ := none
  gpsLatitude : Option ℚ := none
  gpsLongitude : Option ℚ := none
  gpsLatRef : Option String := none
  gpsLonRef : Option String := none
  gpsAltitude : Option ℚ := none
  relAltitude : Option ℚ := none
  groundAltitude : Option ℚ := none
  flightYaw : Option ℚ := none
  model : Option String := none

/-- The maker-notes tags read for the PH4RTK camera (`PH4RTK_TAGS`,
`src/model/process_metadata.py` line 44). -/
structure RtkMeta where
  cameraYaw : Option ℚ := none

/-- The tag-to-field assignments of `Photo.get_metadata`,
`src/model/process_metadata.py` lines 314-333, given the (present) raw
`File:ImageWidth` value `vw`.  A falsy (zero) `vw` skips the assignment
(`if metadata['File:ImageWidth']:`); every other tag is assigned when
present in the mapping, the GPS pair only when both coordinates and both
hemisphere refs are present. -/
def setTagFields (md : RawMeta) (vw : ℚ) (p : Photo) : Photo :=
  { p with
    image_width := if vw ≠ 0 then some vw else p.image_width,
    image_height := match md.imageHeight with | some v => some v | none => p.image_height,
    focal_length := match md.focalLength with | some v => some (v / 1000) | none => p.focal_length,
    gpslat := match md.gpsLatitude, md.gpsLongitude, md.gpsLatRef, md.gpsLonRef with
      | some la, some _, some r1, some _ => some (refConversion la (strLower r1))
      | _, _, _, _ => p.gpslat,
    gpslon := match md.gpsLatitude, md.gpsLongitude, md.gpsLatRef, md.gpsLonRef with
      | some _, some lo, some _, some r2 => some (refConversion lo (strLower r2))
      | _, _, _, _ => p.gpslon,
    gpsalt := match md.gpsAltitude with | some v => some v | none => p.gpsalt,
    baroalt := match md.relAltitude with | some v => some v | none => p.baroalt,
    groundalt := match md.groundAltitude with | some v => some v | none => p.groundalt,
    heading := match md.flightYaw with | some v => some v | none => p.heading,
    cam_model := match md.model with | some v => some v | none => p.cam_model }

/-- The PH4RTK block of `Photo.get_metadata`,
`src/model/process_metadata.py` lines 339-345: when the camera model
contains `FC6310R`, the maker-notes are fetched and a present
`MakerNotes:CameraYaw` overwrites the heading. -/
def applyRtkHeading (rtk : RtkMeta) (m : String) (p : Photo) : Photo :=
  if strContains m "FC6310R" then
    match rtk.cameraYaw with
    | some y => { p with heading := some y }
    | none => p
  else p

/-- `Photo.get_metadata`, `src/model/process_metadata.py` lines 307-351,
applied to the data it reads: the raw tag mapping `md`, the maker-notes
mapping `rtk` (fetched when the model contains `FC6310R`), the camera table
and whether a worldfile already exists at the derived path (`wfExists` — the
`isfile` guard of lines 347-349 is commented out in the source, so the
parameter is never consulted).  Returns the populated photo and whether a
worldfile was written.  The error paths, in source order:
`metadata['File:ImageWidth']` raises `KeyError` when the tag is absent
(line 314); `getCamSensorSize` can raise (line 336); `meter2Degree` raises
`TypeError` when `gpslat` is `None` (line 337); `'FC6310R' in
self.cam_model` raises `TypeError` when the model is `None` (line 340,
unreachable because `getCamSensorSize` raises first); `createWorldfile` can
raise (line 350). -/
noncomputable def get_metadata (table : List CamEntry) (md : RawMeta) (rtk : RtkMeta)
    (wfExists : Bool) (p : Photo) : Except PyErr (Photo × Bool) :=
  match md.imageWidth with
  | none => .error .keyError
  | some vw =>
    let p1 := setTagFields md vw p
    match getCamSensorSize table p1.cam_model p1.image_width p1.image_height with
    | .error e => .error e
    | .ok sz =>
      let p2 := { p1 with sensor_width_decimal := some sz.1, sensor_height_decimal := some sz.2 }
      match p2.gpslat with
      | none => .error .typeError
      | some la =>
        let deg := meter2Degree la sz.1 sz.2
        let p3 := { p2 with sensor_width_degree := some deg.1, sensor_height_degree := some deg.2 }
        match p3.cam_model with
        | none => .error .typeError
        | some m =>
          let p4 := applyRtkHeading rtk m p3
          match createWorldfile p4 with
          | some _ => .ok (p4, true)
          | none => .error .builderError

/-- A concrete north-up photo record for evaluating the canonical builder. -/
def photoC1 : Photo :=
  { image_width := some 4, image_height := some 3, focal_length := some 2,
    gpslat := some 10, gpslon := some 20, gpsalt := some 6, heading := some 0,
    sensor_width_degree := some 5, sensor_height_degree := some 7 }

/-- A concrete photo record consistent with ingestion (its degree-valued
sensor size is exactly `meter2Degree` of its decimal sensor size at its
latitude), on which the legacy and the canonical builder are compared. -/
noncomputable def photoC2 : Photo :=
  { image_width := some 2, image_height := some 1, focal_length := some 1,
    gpslat := some 0, gpslon := some 0, groundalt := some 1, heading := some 0,
    cam_model := some "FC330",
    sensor_width_decimal := some 1, sensor_height_decimal := some 1,
    sensor_width_degree := some (meter2Degree 0 1 1).1,
    sensor_height_degree := some (meter2Degree 0 1 1).2 }

/-- A concrete photo record the legacy generator processes successfully. -/
def photoCancel : Photo :=
  { focal_length := some 1, gpslat := some 0, gpslon := some 0, gpsalt := some 1,
    heading := some 0, sensor_width_decimal := some 1, sensor_height_decimal := some 1 }

/-- A concrete photo record with GPS position and barometric altitude, for
evaluating the adjacent-photo-matching step. -/
def photoC6 : Photo :=
  { gpslat := some 1, gpslon := some 2, baroalt := some 10 }

/-- A concrete raw tag mapping carrying the image dimensions and a camera
model; combined with `photoPre` it drives a successful ingestion. -/
def mdC9 : RawMeta :=
  { imageWidth := some 1, imageHeight := some 1, model := some "X" }

/-- A concrete raw tag mapping whose camera model is the RTK camera and which
carries a flight-yaw heading of 7. -/
def mdC10 : RawMeta :=
  { imageWidth := some 1, imageHeight := some 1, flightYaw := some 7,
    model := some "FC6310R" }

/-- A photo record whose remaining essential fields (focal length, GPS
position and altitude, heading) are already present before ingestion. -/
def photoPre : Photo :=
  { focal_length := some 1, gpslat := some 0, gpslon := some 0, gpsalt := some 1,
    heading := some 0 }

/-- Maker-notes metadata carrying no `CameraYaw` tag. -/
def rtkNone : RtkMeta := {}

/-- Maker-notes metadata carrying a `CameraYaw` tag. -/
def rtkYaw : RtkMeta := { cameraYaw := some 42 }

/-- Observation on an ingestion result: did it succeed having written the
worldfile? -/
def okSnd : Except PyErr (Photo × Bool) → Bool
  | .ok r => r.2
  | .error _ => false

/-- C3.  `altitudeByPriority` follows the priority ground > barometric > GPS,
but with all three altitudes absent it returns `None` instead of signalling
`AltitudeNotFound`: the raise in the `except` clause is dead code, since the
`if / elif` chain cannot raise and simply falls through. -/
theorem getAltByPriority_priority_and_none :
    getAltByPriority { groundalt := some 5, baroalt := some 3, gpsalt := some 1 } = some 5
  ∧ getAltByPriority { baroalt := some 3, gpsalt := some 1 } = some 3
  ∧ getAltByPriority { gpsalt := some 1 } = some 1
  ∧ getAltByPriority Photo.blank = none := by
  exact ⟨rfl, rfl, rfl, rfl⟩

/-- C8.  For a present (string) camera model, sensor-size resolution never
fails: a case-insensitive table hit returns the table's width and height
divided by 1000, a miss returns the heuristic
`image_dimension * 1.55 / 1000000`. -/
theorem getCamSensorSize_string_model_total (table : List CamEntry) (m : String) (iw ih : ℚ) :
    (∀ e, table.find? (fun x => strLower m == strLower x.name) = some e →
        getCamSensorSize table (some m) (some iw) (some ih) = .ok (e.width / 1000, e.height / 1000))
  ∧ (table.find? (fun x => strLower m == strLower x.name) = none →
        getCamSensorSize table (some m) (some iw) (some ih) = .ok (iw * 1.55 / 1000000, ih * 1.55 / 1000000))
  ∧ ∃ r, getCamSensorSize table (some m) (some iw) (some ih) = .ok r := by
  refine ⟨?_, ?_, ?_⟩
  · intro e he
    simp [getCamSensorSize, ProcessCamera.getCamsize, he]
  · intro he
    simp [getCamSensorSize, ProcessCamera.getCamsize, he]
  · rcases h : table.find? (fun x => strLower m == strLower x.name) with _ | e
    · exact ⟨(iw * 1.55 / 1000000, ih * 1.55 / 1000000),
        by simp [getCamSensorSize, ProcessCamera.getCamsize, h]⟩
    · exact ⟨(e.width / 1000, e.height / 1000),
        by simp [getCamSensorSize, ProcessCamera.getCamsize, h]⟩

/-- C8, counterexample.  With the camera model never set (`None`, as when the
photo has no `EXIF:Model` tag), `getCamSensorSize` does not return a value:
`model.lower()` raises `AttributeError`, which is not the caught
`CameraModelNotFound` and so propagates to the caller. -/
theorem getCamSensorSize_none_model_raises :
    getCamSensorSize [] none (some 4000) (some 3000) = .error .attributeError
  ∧ ¬ ∃ r, getCamSensorSize [] none (some 4000) (some 3000) = .ok r := by
  constructor
  · rfl
  · rintro ⟨r, h⟩
    simp [getCamSensorSize, ProcessCamera.getCamsize] at h

/-- C1.  For a photo with all required fields present and a resolvable
altitude, the canonical builder computes the six worldfile values per the
spec: `scale = groundalt/focal_length`, `gsd_x = (sensor_width_deg /
image_width_px) * scale`, `gsd_y = (sensor_height_deg / image_height_px) *
scale`, upper-left corner = GPS position + `(hyp * sin(heading - invar),
hyp * cos(heading - invar))`, `A = cos(heading)*gsd_x`,
`B = -sin(heading)*gsd_y`, `D = -sin(heading)*gsd_x`,
`E = -cos(heading)*gsd_y`; for `heading = 0`, `B = 0` and `D = 0` exactly,
`A = gsd_x`, `E = -gsd_y`. -/
theorem createWorldfile_matches_spec
    (p : Photo) (g fl iw ih lat lon hd : ℚ) (swd shd : ℝ)
    (hg : getAltByPriority p = some g)
    (hfl : p.focal_length = some fl)
    (hswd : p.sensor_width_degree = some swd)
    (hshd : p.sensor_height_degree = some shd)
    (hiw : p.image_width = some iw)
    (hih : p.image_height = some ih)
    (hlat : p.gpslat = some lat)
    (hlon : p.gpslon = some lon)
    (hhd : p.heading = some hd)
    (hfl0 : fl ≠ 0) (hiw0 : iw ≠ 0) (hih0 : ih ≠ 0) :
    ∃ w, createWorldfile p = some w
      ∧ w.A = Real.cos (deg2rad (hd : ℝ)) * (swd / (iw : ℝ) * ((g : ℝ) / (fl : ℝ)))
      ∧ w.B = -(Real.sin (deg2rad (hd : ℝ)) * (shd / (ih : ℝ) * ((g : ℝ) / (fl : ℝ))))
      ∧ w.D = -(Real.sin (deg2rad (hd : ℝ)) * (swd / (iw : ℝ) * ((g : ℝ) / (fl : ℝ))))
      ∧ w.E = -(Real.cos (deg2rad (hd : ℝ)) * (shd / (ih : ℝ) * ((g : ℝ) / (fl : ℝ))))
      ∧ w.ulon = (lon : ℝ) +
          Real.sqrt ((swd * ((g : ℝ) / (fl : ℝ)) / 2) ^ 2 + (shd * ((g : ℝ) / (fl : ℝ)) / 2) ^ 2) *
            Real.sin (deg2rad ((hd : ℝ) - rad2deg (Real.arctan ((iw : ℝ) / (ih : ℝ)))))
      ∧ w.ulat = (lat : ℝ) +
          Real.sqrt ((swd * ((g : ℝ) / (fl : ℝ)) / 2) ^ 2 + (shd * ((g : ℝ) / (fl : ℝ)) / 2) ^ 2) *
            Real.cos (deg2rad ((hd : ℝ) - rad2deg (Real.arctan ((iw : ℝ) / (ih : ℝ)))))
      ∧ (hd = 0 → w.B = 0 ∧ w.D = 0
          ∧ w.A = swd / (iw : ℝ) * ((g : ℝ) / (fl : ℝ))
          ∧ w.E = -(shd / (ih : ℝ) * ((g : ℝ) / (fl : ℝ)))) := by
  have hne : ¬ (fl = 0 ∨ iw = 0 ∨ ih = 0) := by
    push_neg
    exact ⟨hfl0, hiw0, hih0⟩
  have key : createWorldfile p = some
      { A := Real.cos (deg2rad (hd : ℝ)) * (swd / (iw : ℝ) * ((g : ℝ) / (fl : ℝ)))
      , B := -(Real.sin (deg2rad (hd : ℝ)) * (shd / (ih : ℝ) * ((g : ℝ) / (fl : ℝ))))
      , D := -(Real.sin (deg2rad (hd : ℝ)) * (swd / (iw : ℝ) * ((g : ℝ) / (fl : ℝ))))
      , E := -(Real.cos (deg2rad (hd : ℝ)) * (shd / (ih : ℝ) * ((g : ℝ) / (fl : ℝ))))
      , ulon := (lon : ℝ) +
          Real.sqrt (swd * ((g : ℝ) / (fl : ℝ)) / 2 * (swd * ((g : ℝ) / (fl : ℝ)) / 2) +
              shd * ((g : ℝ) / (fl : ℝ)) / 2 * (shd * ((g : ℝ) / (fl : ℝ)) / 2)) *
            Real.sin (deg2rad ((hd : ℝ) - rad2deg (Real.arctan ((iw : ℝ) / (ih : ℝ)))))
      , ulat := (lat : ℝ) +
          Real.sqrt (swd * ((g : ℝ) / (fl : ℝ)) / 2 * (swd * ((g : ℝ) / (fl : ℝ)) / 2) +
              shd * ((g : ℝ) / (fl : ℝ)) / 2 * (shd * ((g : ℝ) / (fl : ℝ)) / 2)) *
            Real.cos (deg2rad ((hd : ℝ) - rad2deg (Real.arctan ((iw : ℝ) / (ih : ℝ))))) } := by
    simp only [createWorldfile, hg, hfl, hswd, hshd, hiw, hih, hlat, hlon, hhd, if_neg hne]
  refine ⟨_, key, rfl, rfl, rfl, rfl, ?_, ?_, ?_⟩
  · simp only [pow_two]
  · simp only [pow_two]
  · intro h0
    subst h0
    refine ⟨?_, ?_, ?_, ?_⟩ <;> simp [deg2rad]

/-- C1, witness: the theorem applied to the concrete north-up record
`photoC1`, whose worldfile has `B = 0` and `D = 0` exactly. -/
theorem createWorldfile_matches_spec_witness :
    ∃ w, createWorldfile photoC1 = some w ∧ w.B = 0 ∧ w.D = 0 := by
  obtain ⟨w, hw, _, _, _, _, _, _, hnorth⟩ :=
    createWorldfile_matches_spec photoC1 6 2 4 3 10 20 0 5 7
      rfl rfl rfl rfl rfl rfl rfl rfl rfl
      (by norm_num) (by norm_num) (by norm_num)
  obtain ⟨hB, hD, _, _⟩ := hnorth rfl
  exact ⟨w, hw, hB, hD⟩

/-- C2.  The legacy batch path and the canonical builder do NOT write the same
six values: `worldfilesGenerator` passes `photo.sensor_width_decimal` and
`photo.sensor_height_decimal` where `createSingleWorldfile` expects the image
pixel dimensions `iw`, `ih` (contradicting that function's own docstring), so
the legacy path divides the degree-valued sensor size by the sensor size in
meters instead of by the pixel count.  On `photoC2` (image 2x1 px, sensor
1x1 m, scale 1, heading 0) the legacy `A` is twice the canonical `A`. -/
theorem generator_call_diverges_from_canonical :
    (generatorCall photoC2).isSome = true
  ∧ (createWorldfile photoC2).isSome = true
  ∧ generatorCall photoC2 ≠ createWorldfile photoC2 := by
  have hA1 : (generatorCall photoC2).map Worldfile.A = some ((metersToDegrees : ℝ)) := by
    simp [generatorCall, photoC2, getAltByPriority, createSingleWorldfile, meter2Degree, deg2rad]
  have hA2 : (createWorldfile photoC2).map Worldfile.A = some ((metersToDegrees : ℝ) / 2) := by
    simp [createWorldfile, photoC2, getAltByPriority, meter2Degree, deg2rad]
  refine ⟨?_, ?_, ?_⟩
  · rcases hg : generatorCall photoC2 with _ | w
    · rw [hg] at hA1
      simp at hA1
    · rfl
  · rcases hg : createWorldfile photoC2 with _ | w
    · rw [hg] at hA2
      simp at hA2
    · rfl
  · intro heq
    rw [heq] at hA1
    rw [hA2] at hA1
    have hcontr : (metersToDegrees : ℝ) / 2 = (metersToDegrees : ℝ) := by
      exact Option.some.inj hA1
    rw [metersToDegrees] at hcontr
    push_cast at hcontr
    norm_num at hcontr

/-- The terrain-adjuster loop can only error with the distinguished
cancellation signal: `raise TaskCancelledByUser` is its sole raise. -/
theorem terrainLoop_error_cancelled (dem : ℚ → ℚ → Option ℚ) (f : ℕ → Bool) :
    ∀ (l acc : List Photo) (checks : ℕ) (s : StageSignal),
      altitudeAdjusterTerrainLoop dem f l checks acc = .error s → s = .cancelled := by
  intro l
  induction l with
  | nil =>
    intro acc checks s h
    simp [altitudeAdjusterTerrainLoop] at h
  | cons q rest ih =>
    intro acc checks s h
    simp only [altitudeAdjusterTerrainLoop] at h
    cases hstep : terrainStep dem q with
    | none =>
      rw [hstep] at h
      exact ih acc checks s h
    | some q2 =>
      rw [hstep] at h
      cases hc : f checks with
      | true =>
        rw [hc] at h
        simp at h
        exact h.symm
      | false =>
        rw [hc] at h
        simp only [Bool.false_eq_true, if_false] at h
        exact ih _ _ s h

/-- Once the terrain-adjuster loop errors on a prefix, running it on any
extension of that prefix gives the same error: the appended photos are never
examined. -/
theorem terrainLoop_append_error (dem : ℚ → ℚ → Option ℚ) (f : ℕ → Bool) :
    ∀ (l₁ l₂ acc : List Photo) (checks : ℕ) (s : StageSignal),
      altitudeAdjusterTerrainLoop dem f l₁ checks acc = .error s →
      altitudeAdjusterTerrainLoop dem f (l₁ ++ l₂) checks acc = .error s := by
  intro l₁
  induction l₁ with
  | nil =>
    intro l₂ acc checks s h
    simp [altitudeAdjusterTerrainLoop] at h
  | cons q rest ih =>
    intro l₂ acc checks s h
    rw [List.cons_append]
    cases hstep : terrainStep dem q with
    | none =>
      simp only [altitudeAdjusterTerrainLoop, hstep] at h ⊢
      exact ih _ _ _ s h
    | some q2 =>
      simp only [altitudeAdjusterTerrainLoop, hstep] at h ⊢
      cases hc : f checks with
      | true =>
        simp only [hc, if_true] at h ⊢
        exact h
      | false =>
        simp only [hc, Bool.false_eq_true, if_false] at h ⊢
        exact ih _ _ _ s h

/-- The generator loop errors only with the generic cancellation exception or
the zero-survivors warning. -/
theorem generatorLoop_error_cases (f : ℕ → Bool) :
    ∀ (l acc : List Photo) (checks : ℕ) (s : StageSignal),
      worldfilesGeneratorLoop f l checks acc = .error s →
      s = .genericExc taskCanceledMsg ∨ s = .warning noWorldfileMsg := by
  intro l
  induction l with
  | nil =>
    intro acc checks s h
    simp only [worldfilesGeneratorLoop] at h
    cases hacc : acc.isEmpty with
    | true =>
      rw [hacc] at h
      simp at h
      exact Or.inr h.symm
    | false =>
      rw [hacc] at h
      simp at h
  | cons q rest ih =>
    intro acc checks s h
    simp only [worldfilesGeneratorLoop] at h
    cases hstep : generatorCall q with
    | none =>
      rw [hstep] at h
      exact ih acc checks s h
    | some w =>
      rw [hstep] at h
      cases hc : f checks with
      | true =>
        rw [hc] at h
        simp at h
        exact Or.inl h.symm
      | false =>
        rw [hc] at h
        simp only [Bool.false_eq_true, if_false] at h
        exact ih _ _ s h

/-- Once the generator loop errors with the cancellation exception on a
prefix, any extension gives the same error: the appended photos are never
examined. -/
theorem generatorLoop_append_cancel (f : ℕ → Bool) :
    ∀ (l₁ l₂ acc : List Photo) (checks : ℕ),
      worldfilesGeneratorLoop f l₁ checks acc = .error (.genericExc taskCanceledMsg) →
      worldfilesGeneratorLoop f (l₁ ++ l₂) checks acc = .error (.genericExc taskCanceledMsg) := by
  intro l₁
  induction l₁ with
  | nil =>
    intro l₂ acc checks h
    cases hacc : acc.isEmpty with
    | true =>
      simp only [worldfilesGeneratorLoop, hacc, if_true] at h
      simp [taskCanceledMsg, noWorldfileMsg] at h
    | false =>
      simp only [worldfilesGeneratorLoop, hacc, Bool.false_eq_true, if_false] at h
      exact absurd h (by simp)
  | cons q rest ih =>
    intro l₂ acc checks h
    rw [List.cons_append]
    cases hstep : generatorCall q with
    | none =>
      simp only [worldfilesGeneratorLoop, hstep] at h ⊢
      exact ih _ _ _ h
    | some w =>
      simp only [worldfilesGeneratorLoop, hstep] at h ⊢
      cases hc : f checks with
      | true =>
        simp only [hc, if_true]
      | false =>
        simp only [hc, Bool.false_eq_true, if_false] at h ⊢
        exact ih _ _ _ h

/-- When every photo of the list fails the generator's per-photo call, the
loop reaches the end with an empty result and raises the warning (the
cancellation flag is never consulted, because `continue` skips the check). -/
theorem generatorLoop_all_fail (f : ℕ → Bool) :
    ∀ (l : List Photo) (checks : ℕ), (∀ p ∈ l, generatorCall p = none) →
      worldfilesGeneratorLoop f l checks [] = .error (.warning noWorldfileMsg) := by
  intro l
  induction l with
  | nil =>
    intro checks _
    simp [worldfilesGeneratorLoop]
  | cons q rest ih =>
    intro checks h
    have hq : generatorCall q = none := h q (List.mem_cons_self q rest)
    simp only [worldfilesGeneratorLoop]
    rw [hq]
    exact ih checks (fun p hp => h p (List.mem_cons_of_mem q hp))

/-- C4.  Cancellation, as the code implements it: each stage checks the flag
once per successfully processed photo and, once it trips, never examines the
remaining photos (running the stage on any extension of the cancelled prefix
gives the same outcome).  The altitude-estimation stage signals the
distinguished `TaskCancelledByUser`; the worldfile-generation stage instead
signals a generic `Exception('Task canceled!')` (its only other escape being
the zero-survivors `Warning`). -/
theorem stage_cancellation_behavior (dem : ℚ → ℚ → Option ℚ) (f : ℕ → Bool)
    (photos rest : List Photo) :
    (∀ s, altitudeAdjusterTerrain dem f photos = .error s → s = .cancelled)
  ∧ (∀ s, altitudeAdjusterTerrain dem f photos = .error s →
        altitudeAdjusterTerrain dem f (photos ++ rest) = .error s)
  ∧ (∀ s, worldfilesGenerator f photos = .error s →
        s = .genericExc taskCanceledMsg ∨ s = .warning noWorldfileMsg)
  ∧ (worldfilesGenerator f photos = .error (.genericExc taskCanceledMsg) →
        worldfilesGenerator f (photos ++ rest) = .error (.genericExc taskCanceledMsg)) := by
  refine ⟨?_, ?_, ?_, ?_⟩
  · intro s h
    exact terrainLoop_error_cancelled dem f photos [] 0 s h
  · intro s h
    exact terrainLoop_append_error dem f photos rest [] 0 s h
  · intro s h
    exact generatorLoop_error_cases f photos [] 0 s h
  · intro h
    exact generatorLoop_append_cancel f photos rest [] 0 h

/-- C4, counterexample.  With the cancellation flag already set, the generator
stage aborts after the first processed photo with the generic
`Exception('Task canceled!')`, which is not the distinguished cancellation
condition `TaskCancelledByUser`. -/
theorem generator_cancel_signals_generic_exception :
    worldfilesGenerator (fun _ => true) [photoCancel] = .error (.genericExc taskCanceledMsg)
  ∧ StageSignal.genericExc taskCanceledMsg ≠ StageSignal.cancelled := by
  constructor
  · rfl
  · simp

/-- C5, amended.  When every photo of the input fails the per-photo worldfile
call, the stage finishes with zero surviving photos and signals this by
RAISING `Warning(noWorldfileMsg)` — the diagnostic hint reaches the caller
as a raised exception, not as a normal return. -/
theorem zero_survivors_raises_warning (f : ℕ → Bool) (photos : List Photo)
    (h : ∀ p ∈ photos, generatorCall p = none) :
    worldfilesGenerator f photos = .error (.warning noWorldfileMsg) :=
  generatorLoop_all_fail f photos 0 h

/-- C5, witness: a one-photo batch whose photo has no metadata at all
produces zero worldfiles and the stage raises the warning. -/
theorem zero_survivors_raises_warning_witness :
    worldfilesGenerator (fun _ => false) [Photo.blank] = .error (.warning noWorldfileMsg) := by
  refine zero_survivors_raises_warning (fun _ => false) [Photo.blank] ?_
  intro p hp
  rw [List.mem_singleton] at hp
  subst hp
  rfl

/-- C5, counterexample.  The zero-survivors condition is raised as an
exception (the `Except.error` channel, `raise Warning(...)` in the source):
the stage does not return normally with a report. -/
theorem zero_survivors_warning_is_raised :
    worldfilesGenerator (fun _ => false) [{ gpslat := some 0 }] = .error (.warning noWorldfileMsg)
  ∧ ¬ ∃ out, worldfilesGenerator (fun _ => false) [{ gpslat := some 0 }] = .ok out := by
  have h1 : worldfilesGenerator (fun _ => false) [{ gpslat := some 0 }] =
      .error (.warning noWorldfileMsg) := rfl
  refine ⟨h1, ?_⟩
  rintro ⟨out, hout⟩
  rw [h1] at hout
  exact absurd hout (by simp)

/-- C6, amended.  The AdjacentPhotoMatching ground-altitude formula as the
code computes it: with a DEM, `groundalt = baroalt + (home_terrain_alt -
t)` where `t` is the DEM sample when it is present AND non-zero, and the
precomputed `adj_terrain_alt_avg` when the sample is unavailable OR exactly
zero (Python truthiness on the sampled float); without a DEM,
`groundalt = baroalt + home_terrain_alt`. -/
theorem adjacent_groundalt_formula (sample : ℚ → ℚ → Option ℚ)
    (home_terrain_alt adj_terrain_alt_avg : ℚ) (p : Photo) (lat lon b : ℚ)
    (hlat : p.gpslat = some lat) (hlon : p.gpslon = some lon)
    (hb : p.baroalt = some b) :
    (∀ v, sample lon lat = some v → v ≠ 0 →
        adjacentStep (some sample) home_terrain_alt adj_terrain_alt_avg p =
          some { p with groundalt := some (b + (home_terrain_alt - v)) })
  ∧ ((sample lon lat = none ∨ sample lon lat = some 0) →
        adjacentStep (some sample) home_terrain_alt adj_terrain_alt_avg p =
          some { p with groundalt := some (b + (home_terrain_alt - adj_terrain_alt_avg)) })
  ∧ adjacentStep none home_terrain_alt adj_terrain_alt_avg p =
      some { p with groundalt := some (b + home_terrain_alt) } := by
  refine ⟨?_, ?_, ?_⟩
  · intro v hv hv0
    simp [adjacentStep, hlat, hlon, hb, hv, hv0]
  · intro hcase
    rcases hcase with hc | hc
    · simp [adjacentStep, hlat, hlon, hb, hc]
    · simp [adjacentStep, hlat, hlon, hb, hc]
  · simp [adjacentStep, hb]

/-- C6, witness: the theorem applied to `photoC6` with a DEM sampling a
non-zero terrain height of 3 at the photo's position. -/
theorem adjacent_groundalt_formula_witness :
    adjacentStep (some fun _ _ => some 3) 20 5 photoC6 =
      some { photoC6 with groundalt := some (10 + (20 - 3)) } := by
  obtain ⟨h1, _, _⟩ :=
    adjacent_groundalt_formula (fun _ _ => some 3) 20 5 photoC6 1 2 10 rfl rfl rfl
  exact h1 3 rfl (by norm_num)

/-- C6, counterexample.  At a point where the DEM sample IS available and
equals 0 (sea level), the code still substitutes `adj_terrain_alt_avg = 5`:
with `baroalt = 10`, `home_terrain_alt = 20` it sets `groundalt = 25`,
whereas the claimed formula `baroalt + (home_terrain_alt - demSample)` gives
`30`. -/
theorem adjacent_zero_sample_substitutes_average :
    (∃ q, adjacentStep (some fun _ _ => some 0) 20 5 photoC6 = some q
        ∧ q.groundalt = some 25)
  ∧ (25 : ℚ) ≠ 10 + (20 - 0) := by
  constructor
  · refine ⟨_, rfl, ?_⟩
    show some ((10 : ℚ) + (20 - 5)) = some 25
    norm_num
  · norm_num

/-- Every `%1.10f` line is an integer part, a point, and exactly ten decimal
digits. -/
theorem fmt10_shape (x : ℝ) :
    ∃ a fr, fmt10 x = a ++ "." ++ fr ∧ fr.length = 10 ∧ fr.data.all Char.isDigit = true := by
  refine ⟨(if round (x * 10 ^ 10) < 0 then "-" else "") ++
            toString ((round (x * 10 ^ 10)).natAbs / 10 ^ 10),
          frac10 ((round (x * 10 ^ 10)).natAbs % 10 ^ 10), ?_, ?_, ?_⟩
  · rfl
  · simp [frac10, String.length]
  · have hd : ∀ d : ℕ, d < 10 → (Nat.digitChar d).isDigit = true := by decide
    show (((List.range 10).reverse).map
        (fun i => Nat.digitChar ((round (x * 10 ^ 10)).natAbs % 10 ^ 10 / 10 ^ i % 10))).all
          Char.isDigit = true
    refine List.all_eq_true.mpr ?_
    intro c hc
    simp only [List.mem_map] at hc
    obtain ⟨i, _, rfl⟩ := hc
    exact hd _ (Nat.mod_lt _ (by norm_num))

/-- C7.  For every photo whose path has a non-empty extension and whose
builder succeeds, the worldfile write targets the name obtained by stripping
the extension and appending a dot, the first and the last character of the
lowercased extension and the letter `w`; the content is exactly six lines,
one per value, in the order `A`, `B`, `D`, `E`, `upperLeftLon`,
`upperLeftLat`, each fixed-point with ten digits after the decimal point. -/
theorem worldfile_output_format
    (path root : String) (e cl : Char) (es : List Char) (p : Photo)
    (hroot : (splitext path).1 = root)
    (hext : (strLower (splitext path).2).data = '.' :: e :: es)
    (hlast : (e :: es).getLast? = some cl)
    (hsome : (createWorldfile p).isSome = true) :
    ∃ w name lines, createWorldfile p = some w
      ∧ writeWorldfile path p = some (name, lines)
      ∧ name = root ++ "." ++ String.mk [e, cl, 'w']
      ∧ lines = [fmt10 w.A, fmt10 w.B, fmt10 w.D, fmt10 w.E, fmt10 w.ulon, fmt10 w.ulat]
      ∧ lines.length = 6
      ∧ ∀ l ∈ lines, ∃ a fr, l = a ++ "." ++ fr ∧ fr.length = 10
          ∧ fr.data.all Char.isDigit = true := by
  obtain ⟨w, hw⟩ := Option.isSome_iff_exists.mp hsome
  have h1 : (strLower (splitext path).2).data.get? 1 = some e := by
    rw [hext]
    rfl
  have h2 : (strLower (splitext path).2).data.getLast? = some cl := by
    rw [hext, List.getLast?_cons_cons]
    exact hlast
  have hname : worldfile_filename path = some (root ++ "." ++ String.mk [e, cl, 'w']) := by
    simp only [worldfile_filename, h1, h2, hroot]
  have hwf : writeWorldfile path p =
      some (root ++ "." ++ String.mk [e, cl, 'w'], worldfileLines w) := by
    simp only [writeWorldfile, hname, hw]
  refine ⟨w, _, _, hw, hwf, rfl, rfl, rfl, ?_⟩
  intro l hl
  simp only [worldfileLines, List.mem_cons, List.not_mem_nil, or_false] at hl
  rcases hl with rfl | rfl | rfl | rfl | rfl | rfl
  · exact fmt10_shape w.A
  · exact fmt10_shape w.B
  · exact fmt10_shape w.D
  · exact fmt10_shape w.E
  · exact fmt10_shape w.ulon
  · exact fmt10_shape w.ulat

/-- C7, witness: the theorem applied to `photoC1` at the path
`/a/photo.JPG`, whose worldfile is written to `/a/photo.jgw`. -/
theorem worldfile_output_format_witness :
    ∃ w name lines, createWorldfile photoC1 = some w
      ∧ writeWorldfile "/a/photo.JPG" photoC1 = some (name, lines)
      ∧ name = "/a/photo" ++ "." ++ String.mk ['j', 'g', 'w']
      ∧ lines = [fmt10 w.A, fmt10 w.B, fmt10 w.D, fmt10 w.E, fmt10 w.ulon, fmt10 w.ulat]
      ∧ lines.length = 6
      ∧ ∀ l ∈ lines, ∃ a fr, l = a ++ "." ++ fr ∧ fr.length = 10
          ∧ fr.data.all Char.isDigit = true := by
  exact worldfile_output_format "/a/photo.JPG" "/a/photo" 'j' 'g' ['p', 'g'] photoC1
    (by decide) (by decide) rfl rfl

/-- A photo with a GPS altitude always has a resolvable altitude. -/
theorem getAltByPriority_isSome_of_gpsalt (p : Photo) (a : ℚ) (h : p.gpsalt = some a) :
    ∃ g, getAltByPriority p = some g := by
  cases hg : p.groundalt with
  | some g => exact ⟨g, by simp [getAltByPriority, hg]⟩
  | none =>
    cases hb : p.baroalt with
    | some b => exact ⟨b, by simp [getAltByPriority, hg, hb]⟩
    | none => exact ⟨a, by simp [getAltByPriority, hg, hb, h]⟩

/-- The canonical builder succeeds whenever every required field is present
and the three divisors are non-zero. -/
theorem createWorldfile_isSome_helper (p : Photo) (g fl iw ih lat lon hd : ℚ) (swd shd : ℝ)
    (hg : getAltByPriority p = some g)
    (hfl : p.focal_length = some fl)
    (hswd : p.sensor_width_degree = some swd)
    (hshd : p.sensor_height_degree = some shd)
    (hiw : p.image_width = some iw)
    (hih : p.image_height = some ih)
    (hlat : p.gpslat = some lat)
    (hlon : p.gpslon = some lon)
    (hhd : p.heading = some hd)
    (hfl0 : fl ≠ 0) (hiw0 : iw ≠ 0) (hih0 : ih ≠ 0) :
    ∃ w, createWorldfile p = some w := by
  have hne : ¬ (fl = 0 ∨ iw = 0 ∨ ih = 0) := by
    push_neg
    exact ⟨hfl0, hiw0, hih0⟩
  cases hcw : createWorldfile p with
  | some w => exact ⟨w, rfl⟩
  | none =>
    exfalso
    simp only [createWorldfile, hg, hfl, hswd, hshd, hiw, hih, hlat, hlon, hhd,
      if_neg hne] at hcw
    exact Option.noConfusion hcw

/-- C9, amended.  Ingestion never short-circuits on an existing worldfile:
the `isfile` guard is commented out in the source, so `get_metadata` behaves
identically whether or not a worldfile already exists, and every successful
ingestion rebuilds and rewrites the photo's worldfile. -/
theorem get_metadata_always_writes_worldfile (table : List CamEntry) (md : RawMeta)
    (rtk : RtkMeta) (wfExists : Bool) (p : Photo) (r : Photo × Bool)
    (h : get_metadata table md rtk wfExists p = .ok r) :
    r.2 = true ∧ get_metadata table md rtk true p = get_metadata table md rtk false p := by
  constructor
  · unfold get_metadata at h
    split at h
    · exact absurd h (by simp)
    · simp only [] at h
      split at h
      · exact absurd h (by simp)
      · split at h
        · exact absurd h (by simp)
        · split at h
          · exact absurd h (by simp)
          · split at h
            · injection h with h2
              exact h2 ▸ rfl
            · exact absurd h (by simp)
  · rfl

/-- C9, witness: the theorem applied to a concrete successful ingestion run
with a worldfile already present (`wfExists = true`). -/
theorem get_metadata_always_writes_worldfile_witness :
    ∃ r, get_metadata [] mdC9 rtkNone true photoPre = .ok r ∧ r.2 = true
      ∧ get_metadata [] mdC9 rtkNone true photoPre
          = get_metadata [] mdC9 rtkNone false photoPre := by
  rcases hE : get_metadata [] mdC9 rtkNone true photoPre with e | r
  · exfalso
    have hok : (get_metadata [] mdC9 rtkNone true photoPre).isOk = true := by decide
    rw [hE] at hok
    exact absurd hok (by simp [Except.isOk, Except.toBool])
  · obtain ⟨h1, h2⟩ :=
      get_metadata_always_writes_worldfile [] mdC9 rtkNone true photoPre r hE
    rw [hE] at h2
    exact ⟨r, rfl, h1, h2⟩

/-- C9, counterexample.  On a photo for which a worldfile already exists
(`wfExists = true`), ingestion still succeeds WITH a worldfile write (the
short-circuit of the claim does not happen: the `isfile` check is commented
out), and its result is bit-identical to the run without an existing
worldfile. -/
theorem existing_worldfile_still_rewritten :
    (∃ ph, get_metadata [] mdC9 rtkNone true photoPre = .ok (ph, true))
  ∧ get_metadata [] mdC9 rtkNone true photoPre
      = get_metadata [] mdC9 rtkNone false photoPre := by
  constructor
  · rcases hE : get_metadata [] mdC9 rtkNone true photoPre with e | r
    · exfalso
      have hok : (get_metadata [] mdC9 rtkNone true photoPre).isOk = true := by decide
      rw [hE] at hok
      exact absurd hok (by simp [Except.isOk, Except.toBool])
    · rcases r with ⟨ph, b⟩
      have hsnd : okSnd (get_metadata [] mdC9 rtkNone true photoPre) = true := by decide
      rw [hE] at hsnd
      simp only [okSnd] at hsnd
      subst hsnd
      exact ⟨ph, rfl⟩
  · rfl

/-- C10.  For every ingestion run that succeeds, the resulting heading is:
the `MakerNotes:CameraYaw` value when the camera model string contains
`FC6310R` and the maker-notes carry a `CameraYaw` tag (the RTK override,
replacing the `XMP:FlightYawDegree` read earlier), and the
`XMP:FlightYawDegree` value for every other camera model. -/
theorem get_metadata_heading_resolution
    (table : List CamEntry) (md : RawMeta) (rtk : RtkMeta) (wfExists : Bool)
    (p ph : Photo) (b : Bool) (fy : ℚ) (m : String)
    (hfy : md.flightYaw = some fy) (hm : md.model = some m)
    (h : get_metadata table md rtk wfExists p = .ok (ph, b)) :
    ph.heading = (if strContains m "FC6310R" then
        match rtk.cameraYaw with
        | some y => some y
        | none => some fy
      else some fy) := by
  unfold get_metadata at h
  split at h
  · exact absurd h (by simp)
  · simp only [] at h
    split at h
    · exact absurd h (by simp)
    · split at h
      · exact absurd h (by simp)
      · split at h
        · exact absurd h (by simp)
        · rename_i vw hvw sz la hla m2 heqm
          split at h
          · injection h with h2
            injection h2 with h3 h4
            subst h3
            have hm2 : m = m2 := by
              have := heqm
              simp only [setTagFields, hm] at this
              exact Option.some.inj this
            subst hm2
            unfold applyRtkHeading
            cases hFC : strContains m "FC6310R" with
            | true =>
              simp only [if_true]
              cases hy : rtk.cameraYaw with
              | some y => simp
              | none => simp [setTagFields, hfy]
            | false =>
              simp only [Bool.false_eq_true, if_false]
              simp [setTagFields, hfy]
          · exact absurd h (by simp)

/-- C10, witness: a concrete run with camera model `FC6310R`,
`XMP:FlightYawDegree = 7` and `MakerNotes:CameraYaw = 42` ends with
heading 42. -/
theorem get_metadata_heading_resolution_witness :
    ∃ ph b, get_metadata [] mdC10 rtkYaw true photoPre = .ok (ph, b)
      ∧ ph.heading = some 42 := by
  rcases hE : get_metadata [] mdC10 rtkYaw true photoPre with e | r
  · exfalso
    have hok : (get_metadata [] mdC10 rtkYaw true photoPre).isOk = true := by decide
    rw [hE] at hok
    exact absurd hok (by simp [Except.isOk, Except.toBool])
  · rcases r with ⟨ph, b⟩
    have hh := get_metadata_heading_resolution [] mdC10 rtkYaw true photoPre ph b
      7 "FC6310R" rfl rfl hE
    refine ⟨ph, b, rfl, ?_⟩
    rw [hh]
    rfl
